import Mathlib

/-!
Verification of the tariff-dashboard data orchestration and derived-view
engine against its natural-language specification.

The JavaScript source is shallowly embedded: JSON field values become
`JVal` (finite numbers as rationals, strings); JavaScript doubles that can
be `NaN` or infinite (results of `parseFloat`, division, `Math.min/max`)
become `PNum`; React state updates become explicit state passing; `async`
failure and `try/catch` become `Except` values threaded through the
translated control flow.  Each definition names the source file and lines
it is translated from.
-/

/-- A JavaScript double as observed by the dashboard code: `NaN`,
`+Infinity`, `-Infinity`, or a finite value (modelled as a rational). -/
inductive PNum where
  | nan
  | pinf
  | ninf
  | fin (q : ℚ)
deriving DecidableEq, Repr

/-- A JSON field value as the dashboard records carry them: a finite
number or a string. -/
inductive JVal where
  | num (q : ℚ)
  | str (s : String)
deriving DecidableEq, Repr

/-- Value of a list of decimal digit characters. -/
def digitsToNat (ds : List Char) : Nat :=
  ds.foldl (fun a c => 10 * a + (c.toNat - 48)) 0

/-- Split a character list into its leading decimal digits and the rest. -/
def takeDigits (cs : List Char) : List Char × List Char :=
  (cs.takeWhile Char.isDigit, cs.dropWhile Char.isDigit)

/-- Parse an optionally signed digit string (an exponent part), returning
its value and the remaining characters; fails when no digit follows. -/
def parseSignedDigits (cs : List Char) : Option (Int × List Char) :=
  match cs with
  | '+' :: t =>
      let (ds, r) := takeDigits t
      if ds.isEmpty then none else some ((digitsToNat ds : Int), r)
  | '-' :: t =>
      let (ds, r) := takeDigits t
      if ds.isEmpty then none else some (-(digitsToNat ds : Int), r)
  | t =>
      let (ds, r) := takeDigits t
      if ds.isEmpty then none else some ((digitsToNat ds : Int), r)

/-- Parse an unsigned decimal literal `digits [. digits] [e|E exp]` as
JavaScript number parsing does, returning its value and the unconsumed
characters.  A malformed exponent part is left unconsumed (as `parseFloat`
does, stopping before the `e`). -/
def parseDecimalParts (cs : List Char) : Option (ℚ × List Char) :=
  let (ip, r1) := takeDigits cs
  let (fp, r2) :=
    match r1 with
    | '.' :: t => takeDigits t
    | _ => ([], r1)
  if ip.isEmpty && fp.isEmpty then none
  else
    let base : ℚ := (digitsToNat ip : ℚ) + (digitsToNat fp : ℚ) / ((10 : ℚ) ^ fp.length)
    match r2 with
    | 'e' :: t =>
        match parseSignedDigits t with
        | some (e, r3) => some (base * (10 : ℚ) ^ e, r3)
        | none => some (base, r2)
    | 'E' :: t =>
        match parseSignedDigits t with
        | some (e, r3) => some (base * (10 : ℚ) ^ e, r3)
        | none => some (base, r2)
    | _ => some (base, r2)

/-- The characters of the literal `Infinity`. -/
def infinityChars : List Char := ['I', 'n', 'f', 'i', 'n', 'i', 't', 'y']

/-- JavaScript `parseFloat` on a string: skip leading whitespace, read an
optional sign, then the longest numeric prefix (`Infinity` or a decimal
literal); `NaN` when no numeric prefix exists. -/
def parseFloatStr (s : String) : PNum :=
  let cs := s.toList.dropWhile Char.isWhitespace
  let core : List Char → Bool → PNum := fun t neg =>
    if infinityChars.isPrefixOf t then (if neg then .ninf else .pinf)
    else
      match parseDecimalParts t with
      | some (q, _) => .fin (if neg then -q else q)
      | none => .nan
  match cs with
  | '+' :: t => core t false
  | '-' :: t => core t true
  | t => core t false

/-- JavaScript `Number` coercion of a string (used by the relational
operators `<` and `>`): trim whitespace, empty means `0`, otherwise the
whole string must be a signed decimal literal or `Infinity`, else `NaN`. -/
def numberOfString (s : String) : PNum :=
  let cs := ((s.toList.dropWhile Char.isWhitespace).reverse.dropWhile Char.isWhitespace).reverse
  if cs.isEmpty then .fin 0
  else
    let core : List Char → Bool → PNum := fun t neg =>
      if t = infinityChars then (if neg then .ninf else .pinf)
      else
        match parseDecimalParts t with
        | some (q, []) => .fin (if neg then -q else q)
        | _ => .nan
    match cs with
    | '+' :: t => core t false
    | '-' :: t => core t true
    | t => core t false

/-- `parseFloat` applied to a record field value: a number parses to
itself, a string through `parseFloatStr`. -/
def parseFloatVal : JVal → PNum
  | .num q => .fin q
  | .str s => parseFloatStr s

/-- JavaScript truthiness of a field value: `0` and the empty string are
falsy, everything else in the modelled domain is truthy. -/
def jsTruthy : JVal → Bool
  | .num q => q != 0
  | .str s => s != ""

/-- A dashboard record: a JSON object as a list of field/value pairs
(first occurrence of a key wins, as property access does). -/
structure TRec where
  fields : List (String × JVal)
deriving DecidableEq, Repr

/-- Property access `r[k]`: `none` models `undefined`. -/
def TRec.get (r : TRec) (k : String) : Option JVal :=
  (r.fields.find? (fun p => p.1 == k)).map (fun p => p.2)

/-!
## TableViewEngine — src/frontend/src/components/DetailedMetricsTable.js

Lines 13-68: the effect that filters, sorts and stores the table rows.
Note that `filtered.sort(...)` sorts the JavaScript array in place, and
with an empty search term `filtered` aliases the `tableData` collection
itself; the model therefore returns both the computed rows and the
post-effect contents of the `tableData` state.
-/

/-- The value the comparator selects for one side:
`a[sortConfig.key] !== undefined ? a[sortConfig.key] : -Infinity`
(lines 43-44). -/
inductive SortVal where
  | v (x : JVal)
  | negInfinity
deriving DecidableEq, Repr

/-- Field selection with the `-Infinity` substitute for a missing field. -/
def fieldSortVal (r : TRec) (k : String) : SortVal :=
  match r.get k with
  | some x => .v x
  | none => .negInfinity

/-- `parseFloat` of a selected sort value; `parseFloat(-Infinity)` is
`-Infinity` (the number is first converted to its string form). -/
def parseFloatSort : SortVal → PNum
  | .negInfinity => .ninf
  | .v x => parseFloatVal x

/-- `Number` coercion of a selected sort value, as the relational
operators perform on a non-string operand pair. -/
def sortValToNumber : SortVal → PNum
  | .negInfinity => .ninf
  | .v (.num q) => .fin q
  | .v (.str s) => numberOfString s

/-- Strict numeric less-than on doubles; any comparison with `NaN` is
false. -/
def pnumLt : PNum → PNum → Bool
  | .nan, _ => false
  | _, .nan => false
  | .ninf, .ninf => false
  | .ninf, _ => true
  | _, .ninf => false
  | .pinf, _ => false
  | _, .pinf => true
  | .fin a, .fin b => a < b

/-- JavaScript `aValue < bValue` on the comparator's raw operands: two
strings compare lexicographically, otherwise both sides are coerced to
numbers. -/
def jsLess (a b : SortVal) : Bool :=
  match a, b with
  | .v (.str x), .v (.str y) => decide (x < y)
  | _, _ => pnumLt (sortValToNumber a) (sortValToNumber b)

/-- JavaScript `aValue > bValue` on the comparator's raw operands. -/
def jsGreater (a b : SortVal) : Bool :=
  match a, b with
  | .v (.str x), .v (.str y) => decide (y < x)
  | _, _ => pnumLt (sortValToNumber b) (sortValToNumber a)

/-- Sign of `aNum - bNum` on doubles, with the comparator's `NaN` result
coerced to `0` as the sort algorithm does (both operands `-Infinity`
gives `NaN`). -/
def numDiffSign : PNum → PNum → Int
  | .nan, _ => 0
  | _, .nan => 0
  | .ninf, .ninf => 0
  | .pinf, .pinf => 0
  | .ninf, _ => -1
  | _, .ninf => 1
  | .pinf, _ => 1
  | _, .pinf => -1
  | .fin a, .fin b => if a < b then -1 else if b < a then 1 else 0

/-- The sort configuration state (line 9): a field key and a direction
string compared against the literal `ascending`. -/
structure SortConfig where
  key : String
  direction : String
deriving DecidableEq, Repr

/-- The sort comparator of lines 41-64: substitute `-Infinity` for a
missing field, compare numerically when both sides `parseFloat` to
non-`NaN`, otherwise fall back to the relational operators on the raw
values; the direction flips the sign. -/
def sortComparator (cfg : SortConfig) (a b : TRec) : Int :=
  let aValue := fieldSortVal a cfg.key
  let bValue := fieldSortVal b cfg.key
  let aNum := parseFloatSort aValue
  let bNum := parseFloatSort bValue
  if aNum ≠ PNum.nan ∧ bNum ≠ PNum.nan then
    if cfg.direction = "ascending" then numDiffSign aNum bNum else numDiffSign bNum aNum
  else if jsLess aValue bValue then (if cfg.direction = "ascending" then -1 else 1)
  else if jsGreater aValue bValue then (if cfg.direction = "ascending" then 1 else -1)
  else 0

/-- Stable insertion step: `x` moves past `y` only when strictly smaller,
so ties keep their original relative order (ES2019 `Array.prototype.sort`
is stable). -/
def insertByCmp (cmp : α → α → Int) (x : α) : List α → List α
  | [] => [x]
  | y :: ys => if cmp x y < 0 then x :: y :: ys else y :: insertByCmp cmp x ys

/-- A stable sort by an integer comparator, modelling the stable
JavaScript array sort. -/
def sortByCmp (cmp : α → α → Int) (l : List α) : List α :=
  l.foldl (fun acc x => insertByCmp cmp x acc) []

/-- Display form of a field value, as `String(field)` produces for the
searched fields (names, codes, regions, sectors are strings; integral
numbers print in decimal). -/
def jvalToDisplayString : JVal → String
  | .str s => s
  | .num q => if q.den = 1 then toString q.num else toString q

/-- The tab-specific searchable fields (lines 29-31). -/
def searchFieldKeys (activeTab : String) : List String :=
  if activeTab = "countries" then ["country_name", "country_code", "region"]
  else ["industry_name", "sector", "industry_code"]

/-- Substring test on character lists. -/
def isSubList (p : List Char) : List Char → Bool
  | [] => p.isEmpty
  | c :: t => p.isPrefixOf (c :: t) || isSubList p t

/-- The filter predicate of lines 27-36: some searchable field is truthy
and case-insensitively contains the search term. -/
def recordMatches (activeTab searchTerm : String) (r : TRec) : Bool :=
  (searchFieldKeys activeTab).any (fun k =>
    match r.get k with
    | some v =>
        jsTruthy v &&
          isSubList searchTerm.toLower.toList (jvalToDisplayString v).toLower.toList
    | none => false)

/-- The `tableData` state: `{ countries: [...], industries: [...] }`. -/
structure TableState where
  countries : List TRec
  industries : List TRec
deriving DecidableEq, Repr

/-- The table effect of lines 13-68.  Returns the computed `tableRows`
and the post-effect contents of `tableData`: with an empty search term
the filter step aliases the state array and the in-place sort reorders
it, otherwise `filter` allocates a fresh array and the state is
untouched. -/
def processEffect (tableData : TableState) (activeTab searchTerm : String)
    (cfg : SortConfig) : List TRec × TableState :=
  let rawData :=
    if activeTab = "countries" then tableData.countries
    else if activeTab = "industries" then tableData.industries
    else []
  let filtered :=
    if searchTerm ≠ "" then rawData.filter (recordMatches activeTab searchTerm)
    else rawData
  let rows := if cfg.key ≠ "" then sortByCmp (sortComparator cfg) filtered else filtered
  let post :=
    if searchTerm = "" ∧ cfg.key ≠ "" then
      if activeTab = "countries" then { tableData with countries := rows }
      else if activeTab = "industries" then { tableData with industries := rows }
      else tableData
    else tableData
  (rows, post)

/-!
## DataOrchestrator — src/unnamed/part_001 (TariffProvider variant)

`fetchAllData` (lines 25-58) fetches the composite dashboard payload and
sets each sub-collection only when the composite carries it; the four
constituent fetches run only when the composite response itself is
falsy.  `try/catch` is modelled by the `Except`-valued fetch outcomes:
an `error` outcome jumps to the catch branch with the state reached so
far.  The returned flag records whether the constituent fetches were
issued.
-/

/-- The composite `/api/dashboard` payload; `none` fields model absent
sub-collections (line 33-37 guards). -/
structure Composite where
  heatmap_data : Option (List TRec)
  sector_data : Option (List TRec)
  time_series : Option (List TRec)
  detail_table : Option TableState
deriving DecidableEq, Repr

/-- The provider state owned by `TariffProvider` (lines 14-21). -/
structure ProviderState where
  loading : Bool
  error : Option String
  dashboardData : Option Composite
  heatmapData : List TRec
  sectorData : List TRec
  timeSeriesData : List TRec
  tableData : TableState
deriving DecidableEq, Repr

deriving instance DecidableEq for Except

/-- One outcome per network call `fetchAllData` may issue: the composite
fetch and the four constituent fetches.  `Except.error` models a
rejected promise; `Except.ok none` models a fulfilled call whose
unwrapped payload is null. -/
structure FetchEnv where
  dashboardResp : Except Unit (Option Composite)
  heatmapResp : Except Unit (Option (List TRec))
  sectorResp : Except Unit (Option (List TRec))
  timeSeriesResp : Except Unit (Option (List TRec))
  tableResp : Except Unit (Option TableState)
deriving DecidableEq, Repr

/-- The catch-branch message of line 53. -/
def fetchFailMsg : String := "Failed to fetch dashboard data. Please try again later."

/-- `fetchAllData` (part_001 lines 25-58).  Returns the final provider
state and whether the four constituent fetches were issued.  A failure
of any constituent fetch rejects the `Promise.all` and lands in the
catch branch with the states set so far (the composite response was
already stored). -/
def fetchAllData (env : FetchEnv) (st : ProviderState) : ProviderState × Bool :=
  let st0 := { st with loading := true, error := none }
  match env.dashboardResp with
  | .error _ => ({ st0 with error := some fetchFailMsg, loading := false }, false)
  | .ok dResp =>
    let st1 := { st0 with dashboardData := dResp }
    match dResp with
    | some d =>
      let st2 := match d.heatmap_data with
        | some h => { st1 with heatmapData := h }
        | none => st1
      let st3 := match d.sector_data with
        | some x => { st2 with sectorData := x }
        | none => st2
      let st4 := match d.time_series with
        | some x => { st3 with timeSeriesData := x }
        | none => st3
      let st5 := match d.detail_table with
        | some x => { st4 with tableData := x }
        | none => st4
      ({ st5 with loading := false }, false)
    | none =>
      match env.heatmapResp, env.sectorResp, env.timeSeriesResp, env.tableResp with
      | .ok h, .ok sc, .ok ts, .ok tb =>
        ({ st1 with
            heatmapData := h.getD [],
            sectorData := sc.getD [],
            timeSeriesData := ts.getD [],
            tableData := tb.getD ⟨[], []⟩,
            loading := false }, true)
      | _, _, _, _ => ({ st1 with error := some fetchFailMsg, loading := false }, true)

/-- A fetch cycle of `fetchAllData` fails when the composite fetch
rejects, or when the composite payload is null and some constituent
fetch rejects. -/
def FetchEnv.anyFailure (env : FetchEnv) : Prop :=
  env.dashboardResp = .error () ∨
    (env.dashboardResp = .ok none ∧
      (env.heatmapResp = .error () ∨ env.sectorResp = .error () ∨
       env.timeSeriesResp = .error () ∨ env.tableResp = .error ()))

instance (env : FetchEnv) : Decidable env.anyFailure := by
  unfold FetchEnv.anyFailure; infer_instance

/-!
## DataOrchestrator — src/frontend/src/context/TariffContext.js

`loadDashboardData` (lines 12-28): the single-payload variant with an
optional server-side refresh before the read.
-/

/-- The context state of lines 7-10. -/
structure CtxState where
  dashboardData : Option Composite
  loading : Bool
  error : Option String
  lastUpdated : Option Nat
deriving DecidableEq, Repr

/-- The catch-branch message of line 23. -/
def loadFailMsg : String := "Failed to load dashboard data. Please try again later."

/-- `loadDashboardData` (TariffContext.js lines 12-28), with the refresh
and data fetch outcomes passed explicitly and the completion time as a
timestamp. -/
def loadDashboardData (forceRefresh : Bool) (refreshResp : Except Unit Unit)
    (dataResp : Except Unit (Option Composite)) (now : Nat) (st : CtxState) : CtxState :=
  if forceRefresh = true ∧ refreshResp = .error () then
    { st with loading := false, error := some loadFailMsg }
  else
    match dataResp with
    | .error _ => { st with loading := false, error := some loadFailMsg }
    | .ok d =>
        { st with dashboardData := d, lastUpdated := some now, error := none, loading := false }

/-!
## UpdateLifecycleManager — src/unnamed/part_001, handleUpdate (lines 67-86)

The manual trigger is modelled as a small-step machine.  `call` runs
`handleUpdate` up to its await (note: the code has no `isUpdating`
guard); `succeed`/`fail` resolve one in-flight `triggerUpdate` network
call; `timerFire` consumes one scheduled deferred re-fetch.
-/

/-- The `updateStatus` state object (line 21 and the literals of lines
71-75 and 80-84). -/
structure UpdStatus where
  isUpdating : Bool
  lastUpdated : Option Nat
  message : Option String
  error : Option String
deriving DecidableEq, Repr

/-- The lifecycle state: the status object plus the number of in-flight
`triggerUpdate` calls and of scheduled (not yet fired) deferred
re-fetches. -/
structure UpdState where
  status : UpdStatus
  inFlight : Nat
  pendingRefetch : Nat
deriving DecidableEq, Repr

/-- Events of the update lifecycle. -/
inductive UpdEvent where
  | call
  | succeed (t : Nat) (msg : String)
  | fail (t : Nat)
  | timerFire
deriving DecidableEq, Repr

/-- The failure message of line 83. -/
def updateFailMsg : String := "Update failed. Please try again."

/-- One lifecycle step.  `call` (lines 68-70) spreads the previous
status with `isUpdating := true` and issues a network call — there is no
guard on `isUpdating`.  A resolution (lines 71-78) or rejection (lines
80-84) replaces the status wholesale and, on success, schedules one
deferred re-fetch. -/
def updStep (s : UpdState) : UpdEvent → UpdState
  | .call =>
      { s with status := { s.status with isUpdating := true },
               inFlight := s.inFlight + 1 }
  | .succeed t msg =>
      if s.inFlight = 0 then s
      else
        { status := { isUpdating := false, lastUpdated := some t,
                      message := some msg, error := none },
          inFlight := s.inFlight - 1,
          pendingRefetch := s.pendingRefetch + 1 }
  | .fail t =>
      if s.inFlight = 0 then s
      else
        { status := { isUpdating := false, lastUpdated := some t,
                      message := none, error := some updateFailMsg },
          inFlight := s.inFlight - 1,
          pendingRefetch := s.pendingRefetch }
  | .timerFire => { s with pendingRefetch := s.pendingRefetch - 1 }

/-- Run a sequence of lifecycle events. -/
def updRun (s : UpdState) (es : List UpdEvent) : UpdState :=
  es.foldl updStep s

/-- The initial status of line 21: not updating, never updated. -/
def updInit : UpdState :=
  { status := { isUpdating := false, lastUpdated := none, message := none, error := none },
    inFlight := 0, pendingRefetch := 0 }

/-!
## Selection state — part_001 `TariffProvider` and
DetailedMetricsTable.js `renderCountryTable` (lines 148-155)

`selectedCountry` is toggled by row clicks; a data refresh replaces the
snapshot rows but nothing in the code clears or revalidates the
selection.
-/

/-- The selection-relevant state: the country codes present in the
current snapshot's table rows, and the selected code. -/
structure SelState where
  countries : List String
  selectedCountry : Option String
deriving DecidableEq, Repr

/-- Selection events: a click on a rendered row (rows come from the
current snapshot) or a snapshot refresh. -/
inductive SelEvent where
  | clickCountry (code : String)
  | refresh (countries : List String)
deriving DecidableEq, Repr

/-- One selection step.  A click toggles per line 152-154:
`setSelectedCountry(selectedCountry === code ? null : code)`; a refresh
replaces the rows and leaves the selection untouched (no clearing logic
exists in the source). -/
def selStep (s : SelState) : SelEvent → SelState
  | .clickCountry c =>
      if c ∈ s.countries then
        { s with selectedCountry := if s.selectedCountry = some c then none else some c }
      else s
  | .refresh cs => { s with countries := cs }

/-- Run a sequence of selection events. -/
def selRun (s : SelState) (es : List SelEvent) : SelState :=
  es.foldl selStep s

/-- Initial selection state (line 22): nothing loaded, nothing selected. -/
def selInit : SelState := { countries := [], selectedCountry := none }

/-!
## CoordinateResolver — src/frontend/src/components/HistoricalTrends.js
(GlobalHeatmap section, lines 185-213)

The per-country coordinate resolution of the `processedCountries` map:
embedded coordinates are used whenever `country.lat && country.lng` is
truthy and neither is `NaN` — no range validation — otherwise the static
name table is consulted, otherwise `{lat: 0, lng: 0}`.
-/

/-- A heatmap entity as the resolver reads it: optional display names
and optional embedded numeric coordinates. -/
structure GeoRec where
  country_name : Option String
  name : Option String
  lat : Option ℚ
  lng : Option ℚ
deriving DecidableEq, Repr

/-- The static name→coordinate table of lines 133-149. -/
def countryCoordinates : List (String × ℚ × ℚ) :=
  [("United States", (37.0902 : ℚ), (-95.7129 : ℚ)),
   ("China", (35.8617 : ℚ), (104.1954 : ℚ)),
   ("European Union", (50.8503 : ℚ), (4.3517 : ℚ)),
   ("Canada", (56.1304 : ℚ), (-106.3468 : ℚ)),
   ("Mexico", (23.6345 : ℚ), (-102.5528 : ℚ)),
   ("Japan", (36.2048 : ℚ), (138.2529 : ℚ)),
   ("South Korea", (35.9078 : ℚ), (127.7669 : ℚ)),
   ("United Kingdom", (55.3781 : ℚ), (-3.4360 : ℚ)),
   ("Brazil", (-14.2350 : ℚ), (-51.9253 : ℚ)),
   ("India", (20.5937 : ℚ), (78.9629 : ℚ)),
   ("Australia", (-25.2744 : ℚ), (133.7751 : ℚ)),
   ("Vietnam", (14.0583 : ℚ), (108.2772 : ℚ)),
   ("Taiwan", (23.6978 : ℚ), (120.9605 : ℚ)),
   ("Russia", (61.5240 : ℚ), (105.3188 : ℚ)),
   ("Germany", (51.1657 : ℚ), (10.4515 : ℚ))]

/-- JavaScript `a || b` on an optional string: an absent or empty string
falls through. -/
def jsStrOr (a : Option String) (b : String) : String :=
  match a with
  | some s => if s = "" then b else s
  | none => b

/-- `country.country_name || country.name || ''` (line 194). -/
def displayNameOf (c : GeoRec) : String :=
  jsStrOr c.country_name (jsStrOr c.name "")

/-- `countryCoordinates[countryName] || { lat: 0, lng: 0 }` (line 202). -/
def lookupCoords (nm : String) : ℚ × ℚ :=
  match countryCoordinates.find? (fun e => e.1 == nm) with
  | some e => (e.2.1, e.2.2)
  | none => (0, 0)

/-- The guard of line 197: `country.lat && country.lng && !isNaN(...)`.
In the modelled numeric domain this is: both coordinates present and
nonzero (`0` is falsy; finite rationals are never `NaN`). -/
def hasTruthyCoords (c : GeoRec) : Bool :=
  match c.lat, c.lng with
  | some la, some ln => la != 0 && ln != 0
  | _, _ => false

/-- The coordinate resolution of lines 192-209: embedded coordinates
pass through unvalidated when truthy, otherwise name lookup, otherwise
the origin. -/
def resolveCoords (c : GeoRec) : ℚ × ℚ :=
  if hasTruthyCoords c then (c.lat.getD 0, c.lng.getD 0)
  else lookupCoords (displayNameOf c)

/-!
## ScaleEngine — the two `getColorScale` normalizations

src/unnamed/part_000 lines 58-68: `(value - min) / (max - min)` with no
guard — a degenerate range divides by zero.
HistoricalTrends.js (GlobalHeatmap section) lines 228-237:
`(value - min) / (max - min || 1)` — a zero denominator is replaced by 1.
-/

/-- Division on doubles restricted to finite operands: `x / 0` is `NaN`
for `x = 0` and a signed infinity otherwise. -/
def jsDiv (a b : ℚ) : PNum :=
  if b ≠ 0 then .fin (a / b)
  else if a > 0 then .pinf
  else if a < 0 then .ninf
  else .nan

/-- `Math.min` on doubles: `NaN` is absorbing. -/
def jsMin : PNum → PNum → PNum
  | .nan, _ => .nan
  | _, .nan => .nan
  | .ninf, _ => .ninf
  | _, .ninf => .ninf
  | .pinf, b => b
  | a, .pinf => a
  | .fin a, .fin b => .fin (min a b)

/-- `Math.max` on doubles: `NaN` is absorbing. -/
def jsMax : PNum → PNum → PNum
  | .nan, _ => .nan
  | _, .nan => .nan
  | .pinf, _ => .pinf
  | _, .pinf => .pinf
  | .ninf, b => b
  | a, .ninf => a
  | .fin a, .fin b => .fin (max a b)

/-- The normalization step of part_000's `getColorScale` (line 60):
`Math.max(0, Math.min(1, (value - min) / (max - min)))` with an
unguarded denominator. -/
def normalizedFmt (value mn mx : ℚ) : PNum :=
  jsMax (.fin 0) (jsMin (.fin 1) (jsDiv (value - mn) (mx - mn)))

/-- The normalization step of GlobalHeatmap's `getColorScale`
(line 230): `Math.max(0, Math.min(1, (value - min) / (max - min || 1)))`;
the `||` replaces a zero denominator by 1, so the result is finite. -/
def normalizedHeat (value mn mx : ℚ) : ℚ :=
  max 0 (min 1 ((value - mn) / (if mx - mn = 0 then 1 else mx - mn)))

/-- `Math.round` as used for the colour channels: floor of `x + 1/2`. -/
def jsRound (q : ℚ) : Int := ⌊q + 1 / 2⌋

/-- The red/blue colour channels of GlobalHeatmap's `getColorScale`
(lines 233-236). -/
def getColorScale (value mn mx : ℚ) : Int × Int :=
  let normalized := normalizedHeat value mn mx
  (jsRound (normalized * 255), jsRound ((1 - normalized) * 255))

/-!
## MetricAccessor — HistoricalTrends.js (GlobalHeatmap section)

Lines 219-222 and 255-264 read magnitudes through truthiness-fallback
chains such as `parseFloat(c.value || c.tariff_impact || c.trade_deficit
|| 0)`; the spec names this idiom `firstPresent(record, fields,
default)`.
-/

/-- The first truthy field of the priority list, as the `||` chain
selects it: an absent field, a zero, or an empty string falls through. -/
def firstTruthyField (r : TRec) : List String → Option JVal
  | [] => none
  | f :: fs =>
      match r.get f with
      | some v => if jsTruthy v then some v else firstTruthyField r fs
      | none => firstTruthyField r fs

/-- `firstPresent`: `parseFloat` of the first truthy field, with the
numeric default closing the chain. -/
def firstPresent (r : TRec) (fields : List String) (dflt : ℚ) : PNum :=
  parseFloatVal ((firstTruthyField r fields).getD (.num dflt))

/-- Modelled from the spec: the MetricAccessor contract as the spec words
it — the first field in priority order whose value is defined and
numeric (zero included) is returned, else the default.  Stated only to
be compared with the source's `firstPresent`. -/
def firstPresentSpec (r : TRec) : List String → ℚ → ℚ
  | [], d => d
  | f :: fs, d =>
      match r.get f with
      | some (.num q) => q
      | _ => firstPresentSpec r fs d

/-- Modelled from the spec: the TableViewEngine comparator as the spec
words it — missing fields count as negative infinity, numeric comparison
when both sides parse as numbers, text comparison otherwise, direction
flipping the sign.  Stated only to be compared with the source's
`sortComparator`. -/
def sortComparatorSpec (cfg : SortConfig) (a b : TRec) : Int :=
  let av := fieldSortVal a cfg.key
  let bv := fieldSortVal b cfg.key
  let an := parseFloatSort av
  let bn := parseFloatSort bv
  let textOf : SortVal → String := fun v =>
    match v with
    | .negInfinity => "-Infinity"
    | .v x => jvalToDisplayString x
  let base :=
    if an ≠ PNum.nan ∧ bn ≠ PNum.nan then numDiffSign an bn
    else if (textOf av).data < (textOf bv).data then -1
    else if (textOf bv).data < (textOf av).data then 1
    else 0
  if cfg.direction = "ascending" then base else -base


/-!
## General lemmas
-/

/-- Stable insertion only reorders: the result is a permutation of
placing the element in front. -/
theorem insertByCmp_perm (cmp : α → α → Int) (x : α) (l : List α) :
    List.Perm (insertByCmp cmp x l) (x :: l) := by
  induction l with
  | nil => exact List.Perm.refl _
  | cons y ys ih =>
      unfold insertByCmp
      by_cases h : cmp x y < 0
      · simp [h]
      · simp only [h, if_false]
        exact (ih.cons y).trans (List.Perm.swap x y ys)

/-- Folding stable insertions over a list permutes the accumulated input. -/
theorem foldl_insertByCmp_perm (cmp : α → α → Int) (l : List α) :
    ∀ acc : List α,
      List.Perm (List.foldl (fun a x => insertByCmp cmp x a) acc l) (acc ++ l) := by
  induction l with
  | nil => intro acc; simp
  | cons x t ih =>
      intro acc
      have h1 := ih (insertByCmp cmp x acc)
      have h2 : List.Perm (insertByCmp cmp x acc ++ t) ((x :: acc) ++ t) :=
        (insertByCmp_perm cmp x acc).append_right t
      have h3 : List.Perm ((x :: acc) ++ t) (acc ++ x :: t) := List.perm_middle.symm
      exact (h1.trans h2).trans h3

/-- The stable sort is a permutation of its input. -/
theorem sortByCmp_perm (cmp : α → α → Int) (l : List α) :
    List.Perm (sortByCmp cmp l) l := by
  simpa using foldl_insertByCmp_perm cmp l []

/-- Every entry of the static coordinate table is inside
`[-90, 90] × [-180, 180]`, hence so is every lookup result. -/
theorem lookupCoords_range (nm : String) :
    |(lookupCoords nm).1| ≤ 90 ∧ |(lookupCoords nm).2| ≤ 180 := by
  unfold lookupCoords
  cases hf : countryCoordinates.find? (fun e => e.1 == nm) with
  | none => norm_num
  | some e =>
      have he : e ∈ countryCoordinates := List.mem_of_find?_eq_some hf
      have hall : ∀ x ∈ countryCoordinates, |x.2.1| ≤ 90 ∧ |x.2.2| ≤ 180 := by
        intro x hx
        fin_cases hx <;> constructor <;> rw [abs_le] <;> constructor <;> norm_num
      exact hall e he

/-!
## Claim theorems
-/

/-- C7: the claim fails — with max = min = 0 the GlobalHeatmap
normalization maps value 1 to 1, not 0 (and the format-utils variant
divides by zero, also giving 1 after clamping), so the degenerate range
is not defined as 0 for every value. -/
theorem C7_degenerate_range_counterexample :
    normalizedHeat 1 0 0 = 1 ∧ normalizedFmt 1 0 0 = .fin 1 ∧ (1 : ℚ) ≠ 0 := by
  refine ⟨by norm_num [normalizedHeat], ?_, by norm_num⟩
  norm_num [normalizedFmt, jsDiv, jsMin, jsMax]

/-- C7 (amended): when max = min the GlobalHeatmap `getColorScale`
normalization replaces the zero denominator by 1 and so computes the
clamp of `value - min` to [0, 1] — 0 only for values at or below the
minimum, 1 from one unit above it; the unguarded format-utils variant
divides by zero and yields 0 below the minimum, NaN at it, and 1 above
it.  Neither variant returns 0 for every value on a degenerate range. -/
theorem C7_degenerate_range_behavior (v m : ℚ) :
    normalizedHeat v m m = max 0 (min 1 (v - m)) ∧
    (v ≤ m → normalizedHeat v m m = 0) ∧
    (m + 1 ≤ v → normalizedHeat v m m = 1) ∧
    (v < m → normalizedFmt v m m = .fin 0) ∧
    (v = m → normalizedFmt v m m = .nan) ∧
    (m < v → normalizedFmt v m m = .fin 1) := by
  have hbase : normalizedHeat v m m = max 0 (min 1 (v - m)) := by
    simp [normalizedHeat]
  refine ⟨hbase, ?_, ?_, ?_, ?_, ?_⟩
  · intro h
    rw [hbase]
    have h1 : v - m ≤ 0 := sub_nonpos.mpr h
    rw [min_eq_right (h1.trans (by norm_num)), max_eq_left h1]
  · intro h
    rw [hbase]
    have h1 : (1 : ℚ) ≤ v - m := by linarith
    rw [min_eq_left h1, max_eq_right (by norm_num)]
  · intro h
    have h1 : v - m < 0 := sub_neg.mpr h
    have hne : ¬((m - m : ℚ) ≠ 0) := by norm_num
    simp only [normalizedFmt, sub_self, jsDiv, hne, if_false,
      not_lt.mpr h1.le, if_pos h1]
    rfl
  · intro h
    subst h
    have : normalizedFmt v v v = jsMax (.fin 0) (jsMin (.fin 1) (jsDiv 0 0)) := by
      simp [normalizedFmt]
    rw [this]
    norm_num [jsDiv, jsMin, jsMax]
  · intro h
    have h1 : 0 < v - m := sub_pos.mpr h
    have hne : ¬((m - m : ℚ) ≠ 0) := by norm_num
    simp only [normalizedFmt, sub_self, jsDiv, hne, if_false, if_pos h1]
    norm_num [jsMin, jsMax]

/-- Witness for C7 (amended) at concrete degenerate ranges. -/
theorem C7_degenerate_range_behavior_witness :
    ((3 : ℚ) ≤ 5 ∧ normalizedHeat 3 5 5 = 0) ∧
    ((5 : ℚ) < 7 ∧ normalizedFmt 7 5 5 = .fin 1) :=
  ⟨⟨by norm_num, (C7_degenerate_range_behavior 3 5).2.1 (by norm_num)⟩,
   ⟨by norm_num, (C7_degenerate_range_behavior 7 5).2.2.2.2.2 (by norm_num)⟩⟩

/-- The record and priority list of the spec's MetricAccessor examples,
with a zero-valued first field added. -/
def recC8 : TRec := ⟨[("value", .num 0), ("tariff_impact", .num 7)]⟩

/-- The priority list of the magnitude lookup (line 221). -/
def fieldsC8 : List String := ["value", "tariff_impact", "trade_deficit"]

/-- C8: the claim fails — a field that is defined and numerically zero is
skipped by the `||` chain: on a record with value 0 and tariff_impact 7
the source returns 7 where the claimed first-defined-numeric rule
(`firstPresentSpec`) returns 0. -/
theorem C8_zero_skipped_counterexample :
    firstPresent recC8 fieldsC8 0 = .fin 7 ∧
    firstPresentSpec recC8 fieldsC8 0 = 0 ∧ (0 : ℚ) ≠ 7 := by
  refine ⟨by decide, by decide, by norm_num⟩

/-- C8 (amended): `firstPresent` returns `parseFloat` of the first truthy
field in priority order — a defined field holding 0 or the empty string
falls through exactly like an absent one — and the default when no field
is truthy; the spec's two concrete examples hold as stated. -/
theorem C8_first_truthy_semantics (r : TRec) (f : String) (fs : List String) (d q : ℚ) :
    (r.get f = some (.num 0) → firstPresent r (f :: fs) d = firstPresent r fs d) ∧
    (r.get f = some (.str "") → firstPresent r (f :: fs) d = firstPresent r fs d) ∧
    (r.get f = none → firstPresent r (f :: fs) d = firstPresent r fs d) ∧
    (r.get f = some (.num q) → q ≠ 0 → firstPresent r (f :: fs) d = .fin q) ∧
    firstPresent ⟨[("tariff_impact", .num 7)]⟩ fieldsC8 0 = .fin 7 ∧
    firstPresent ⟨[]⟩ fieldsC8 0 = .fin 0 := by
  refine ⟨?_, ?_, ?_, ?_, by decide, by decide⟩
  · intro h; simp [firstPresent, firstTruthyField, h, jsTruthy]
  · intro h; simp [firstPresent, firstTruthyField, h, jsTruthy]
  · intro h; simp [firstPresent, firstTruthyField, h]
  · intro h hq
    simp [firstPresent, firstTruthyField, h, jsTruthy, hq, parseFloatVal]

/-- Witness for C8 (amended): each fall-through and hit case at concrete
records. -/
theorem C8_first_truthy_semantics_witness :
    firstPresent recC8 fieldsC8 0 =
      firstPresent recC8 ["tariff_impact", "trade_deficit"] 0 ∧
    firstPresent recC8 ["tariff_impact", "trade_deficit"] 0 = .fin 7 := by
  constructor
  · exact (C8_first_truthy_semantics recC8 "value" ["tariff_impact", "trade_deficit"] 0 0).1 rfl
  · exact (C8_first_truthy_semantics recC8 "tariff_impact" ["trade_deficit"] 0 7).2.2.2.1 rfl
      (by norm_num)

/-- The out-of-range heatmap record of the C4 counterexample. -/
def geoBad : GeoRec := ⟨some "Atlantis", none, some 100, some 200⟩

/-- C4: the claim fails — embedded coordinates pass through with no range
validation: a record carrying lat 100, lng 200 resolves to (100, 200),
outside [-90, 90] × [-180, 180], where the claimed order of resolution
would have fallen back to the name table. -/
theorem C4_out_of_range_counterexample :
    resolveCoords geoBad = (100, 200) ∧ ¬(|(100 : ℚ)| ≤ 90) := by
  constructor
  · simp [resolveCoords, hasTruthyCoords, geoBad]
  · rw [abs_le]; intro h; linarith [h.2]

/-- C4 (amended): embedded coordinates are used unchanged whenever both
are present and nonzero — with no range check, so out-of-range embedded
pairs leak through — and only otherwise does the resolver fall back to
the static name table and then the origin, both of which always produce
a pair inside [-90, 90] × [-180, 180]. -/
theorem C4_resolve_order_and_fallback_range (c : GeoRec) (la ln : ℚ) :
    (c.lat = some la → c.lng = some ln → la ≠ 0 → ln ≠ 0 →
        resolveCoords c = (la, ln)) ∧
    (hasTruthyCoords c = false →
        resolveCoords c = lookupCoords (displayNameOf c)) ∧
    (hasTruthyCoords c = false →
        |(resolveCoords c).1| ≤ 90 ∧ |(resolveCoords c).2| ≤ 180) := by
  refine ⟨?_, ?_, ?_⟩
  · intro h1 h2 h3 h4
    have ht : hasTruthyCoords c = true := by
      simp [hasTruthyCoords, h1, h2, h3, h4]
    simp [resolveCoords, ht, h1, h2]
  · intro h
    simp [resolveCoords, h]
  · intro h
    rw [show resolveCoords c = lookupCoords (displayNameOf c) by
      simp [resolveCoords, h]]
    exact lookupCoords_range (displayNameOf c)

/-- Witness for C4 (amended): an in-range embedded pair passes through,
and a record without embedded coordinates resolves through the table. -/
theorem C4_resolve_order_and_fallback_range_witness :
    resolveCoords ⟨some "Atlantis", none, some 30, some 110⟩ = (30, 110) ∧
    resolveCoords ⟨some "China", none, none, none⟩ =
      lookupCoords (displayNameOf ⟨some "China", none, none, none⟩) :=
  ⟨(C4_resolve_order_and_fallback_range ⟨some "Atlantis", none, some 30, some 110⟩
      30 110).1 rfl rfl (by norm_num) (by norm_num),
   (C4_resolve_order_and_fallback_range ⟨some "China", none, none, none⟩ 0 0).2.1 rfl⟩

/-- A sample heatmap record. -/
def hrec : TRec := ⟨[("country_name", .str "China"), ("value", .num 3)]⟩

/-- A sample sector record. -/
def srec : TRec := ⟨[("sector", .str "Energy")]⟩

/-- A fetch environment whose composite payload is present but carries
only the heatmap collection, while every constituent endpoint would
answer successfully. -/
def envC1 : FetchEnv :=
  { dashboardResp := .ok (some ⟨some [hrec], none, none, none⟩),
    heatmapResp := .ok (some [hrec]),
    sectorResp := .ok (some [srec]),
    timeSeriesResp := .ok (some []),
    tableResp := .ok (some ⟨[], []⟩) }

/-- The provider state at mount (part_001 lines 14-21). -/
def stEmpty : ProviderState :=
  { loading := true, error := none, dashboardData := none,
    heatmapData := [], sectorData := [], timeSeriesData := [],
    tableData := ⟨[], []⟩ }

/-- C1: the claim fails — for a composite payload that is present but
missing three of the four collections, `fetchAllData` issues no
constituent fetch and leaves the missing collections at their previous
values instead of sourcing them from the constituent responses
(the sector endpoint would have answered with a record). -/
theorem C1_composite_partial_counterexample :
    (fetchAllData envC1 stEmpty).2 = false ∧
    (fetchAllData envC1 stEmpty).1.sectorData = [] ∧
    envC1.sectorResp = .ok (some [srec]) ∧ [srec] ≠ ([] : List TRec) := by
  refine ⟨rfl, rfl, rfl, by decide⟩

/-- C1 (amended): the constituent fetches are issued exactly when the
composite response is absent (falsy).  A present composite — complete or
not — is used directly: each sub-collection it carries replaces the
state, each sub-collection it lacks keeps its previous value, and no
constituent fetch is issued. -/
theorem C1_fallback_exactly_when_composite_absent (env : FetchEnv) (st : ProviderState) :
    (∀ d, env.dashboardResp = .ok (some d) →
        fetchAllData env st =
          ({ st with loading := false, error := none, dashboardData := some d,
                     heatmapData := d.heatmap_data.getD st.heatmapData,
                     sectorData := d.sector_data.getD st.sectorData,
                     timeSeriesData := d.time_series.getD st.timeSeriesData,
                     tableData := d.detail_table.getD st.tableData }, false)) ∧
    (env.dashboardResp = .ok none → (fetchAllData env st).2 = true) ∧
    (env.dashboardResp = .error () → (fetchAllData env st).2 = false) := by
  obtain ⟨edr, ehr, esr, etr, ebr⟩ := env
  refine ⟨?_, ?_, ?_⟩
  · rintro ⟨hm, sc, ts, tb⟩ h
    simp only at h
    subst h
    cases hm <;> cases sc <;> cases ts <;> cases tb <;> rfl
  · intro h
    simp only at h
    subst h
    cases ehr <;> cases esr <;> cases etr <;> cases ebr <;> rfl
  · intro h
    simp only at h
    subst h
    rfl

/-- Witness for C1 (amended): the partial-composite environment above,
with the composite's heatmap collection applied and the rest kept. -/
theorem C1_fallback_exactly_when_composite_absent_witness :
    fetchAllData envC1 stEmpty =
      ({ stEmpty with loading := false, error := none,
                      dashboardData := some ⟨some [hrec], none, none, none⟩,
                      heatmapData := [hrec] }, false) :=
  (C1_fallback_exactly_when_composite_absent envC1 stEmpty).1
    ⟨some [hrec], none, none, none⟩ rfl

/-- C2: the claim fails — after one call the status is updating, yet a
second call is not a no-op: it changes the state, leaves two updates in
flight, and two successful completions then queue two deferred
re-fetches. -/
theorem C2_no_single_flight_counterexample :
    (updRun updInit [UpdEvent.call]).status.isUpdating = true ∧
    updRun updInit [UpdEvent.call, UpdEvent.call] ≠ updRun updInit [UpdEvent.call] ∧
    (updRun updInit [UpdEvent.call, UpdEvent.call]).inFlight = 2 ∧
    (updRun updInit [UpdEvent.call, UpdEvent.call, UpdEvent.succeed 1 "ok",
        UpdEvent.succeed 2 "ok"]).pendingRefetch = 2 := by
  refine ⟨rfl, by decide, rfl, rfl⟩

/-- C2 (amended): `handleUpdate` has no `isUpdating` guard, so a call
while an update is in flight is not a no-op: every call marks the status
updating and adds one in-flight update, and every successful completion
queues one more deferred re-fetch — neither in-flight updates nor queued
re-fetches are bounded by one. -/
theorem C2_call_starts_update_even_while_updating (s : UpdState) (t : Nat) (m : String) :
    ((updStep s .call).inFlight = s.inFlight + 1 ∧
     (updStep s .call).status.isUpdating = true ∧
     updStep s .call ≠ s) ∧
    (s.inFlight ≠ 0 →
        (updStep s (.succeed t m)).pendingRefetch = s.pendingRefetch + 1) := by
  refine ⟨⟨rfl, rfl, ?_⟩, ?_⟩
  · intro h
    have := congrArg UpdState.inFlight h
    simp only [updStep] at this
    omega
  · intro h
    simp [updStep, h]

/-- A lifecycle state with one update in flight. -/
def sOneFlight : UpdState :=
  { status := { isUpdating := true, lastUpdated := none, message := none, error := none },
    inFlight := 1, pendingRefetch := 0 }

/-- Witness for C2 (amended) at a state with one in-flight update. -/
theorem C2_call_starts_update_even_while_updating_witness :
    sOneFlight.inFlight ≠ 0 ∧
    (updStep sOneFlight (.succeed 3 "done")).pendingRefetch =
      sOneFlight.pendingRefetch + 1 :=
  ⟨by decide,
   (C2_call_starts_update_even_while_updating sOneFlight 3 "done").2 (by decide)⟩

/-- C10: a failed manual update ends not-updating with the error message
of line 83, and still stamps `lastUpdated` with the failure time exactly
as a successful completion does — `lastUpdated` does not distinguish a
failed refresh from a successful one. -/
theorem C10_lastUpdated_advances_on_failure (s : UpdState) (t : Nat) (m : String) :
    s.inFlight ≠ 0 →
      (updStep s (.fail t)).status.isUpdating = false ∧
      (updStep s (.fail t)).status.lastUpdated = some t ∧
      (updStep s (.fail t)).status.error = some updateFailMsg ∧
      (updStep s (.succeed t m)).status.lastUpdated = some t := by
  intro h
  simp [updStep, h]

/-- Witness for C10 at the one-in-flight state. -/
theorem C10_lastUpdated_advances_on_failure_witness :
    sOneFlight.inFlight ≠ 0 ∧
    (updStep sOneFlight (.fail 9)).status.lastUpdated = some 9 :=
  ⟨by decide, (C10_lastUpdated_advances_on_failure sOneFlight 9 "m" (by decide)).2.1⟩

/-- C5: the claim fails — after selecting a country present in the
snapshot and refreshing to a snapshot that no longer contains it, the
selection still references the removed country instead of being
cleared. -/
theorem C5_stale_selection_counterexample :
    (selRun selInit [SelEvent.refresh ["USA"], SelEvent.clickCountry "USA",
        SelEvent.refresh ["CHN"]]).selectedCountry = some "USA" ∧
    "USA" ∉ (selRun selInit [SelEvent.refresh ["USA"], SelEvent.clickCountry "USA",
        SelEvent.refresh ["CHN"]]).countries := by
  refine ⟨rfl, by decide⟩

/-- C5 (amended): clicking a displayed entity has the claimed toggle
semantics — selecting the selected entity clears, selecting another
selects it — but a refresh replaces the snapshot rows and never clears
or revalidates the selection, so a stale selection dangles; no failure
occurs (the step is total and a dangling code is simply never matched by
any row). -/
theorem C5_toggle_and_refresh (s : SelState) (c : String) (cs : List String) :
    (c ∈ s.countries → s.selectedCountry = some c →
        (selStep s (.clickCountry c)).selectedCountry = none) ∧
    (c ∈ s.countries → s.selectedCountry ≠ some c →
        (selStep s (.clickCountry c)).selectedCountry = some c) ∧
    (selStep s (.refresh cs)).selectedCountry = s.selectedCountry ∧
    (selStep s (.refresh cs)).countries = cs := by
  refine ⟨?_, ?_, rfl, rfl⟩
  · intro hc hsel
    simp [selStep, hc, hsel]
  · intro hc hsel
    simp [selStep, hc, hsel]

/-- Witness for C5 (amended): toggling the selected country clears it. -/
theorem C5_toggle_and_refresh_witness :
    "USA" ∈ (["USA", "CHN"] : List String) ∧
    (selStep ⟨["USA", "CHN"], some "USA"⟩ (.clickCountry "USA")).selectedCountry = none :=
  ⟨by decide,
   (C5_toggle_and_refresh ⟨["USA", "CHN"], some "USA"⟩ "USA" []).1 (by decide) rfl⟩

/-- The default table state of the C3 counterexample: two fetched
country records in ascending tariff order. -/
def tdC3 : TableState :=
  ⟨[⟨[("id", .num 1), ("effective_tariff", .num 1)]⟩,
    ⟨[("id", .num 2), ("effective_tariff", .num 5)]⟩], []⟩

/-- The mount-time sort configuration of line 9: effective tariff,
descending. -/
def cfgDefault : SortConfig := ⟨"effective_tariff", "descending"⟩

/-- C3: the claim fails — with an empty search term the filter step
aliases the snapshot's countries array and the sort step reorders it in
place: after the effect the tableData state differs from the snapshot
that was fetched. -/
theorem C3_snapshot_mutated_counterexample :
    (processEffect tdC3 "countries" "" cfgDefault).2 ≠ tdC3 ∧
    (processEffect tdC3 "countries" "" cfgDefault).2.countries =
      [⟨[("id", .num 2), ("effective_tariff", .num 5)]⟩,
       ⟨[("id", .num 1), ("effective_tariff", .num 1)]⟩] := by
  refine ⟨by decide, rfl⟩

/-- C3 (amended): with a nonempty query the snapshot is untouched (the
filter allocates a fresh array); with an empty query the in-place sort
at most permutes the aliased collection — records are never modified,
added or removed, and the other tab's collection is never touched. -/
theorem C3_mutation_scope (td : TableState) (tab q : String) (cfg : SortConfig) :
    (q ≠ "" → (processEffect td tab q cfg).2 = td) ∧
    (processEffect td tab q cfg).2.countries.Perm td.countries ∧
    (processEffect td tab q cfg).2.industries.Perm td.industries := by
  have hpost : q ≠ "" → (processEffect td tab q cfg).2 = td := by
    intro hq
    simp [processEffect, hq]
  refine ⟨hpost, ?_, ?_⟩ <;> by_cases hq : q = ""
  · subst hq
    simp only [processEffect]
    split_ifs
    any_goals exact sortByCmp_perm _ _
    any_goals exact List.Perm.refl _
    all_goals exact absurd rfl (by assumption)
  · rw [hpost hq]
  · subst hq
    simp only [processEffect]
    split_ifs
    any_goals exact sortByCmp_perm _ _
    any_goals exact List.Perm.refl _
    all_goals exact absurd rfl (by assumption)
  · rw [hpost hq]

/-- Witness for C3 (amended): a nonempty query leaves the snapshot
untouched. -/
theorem C3_mutation_scope_witness :
    ("x" : String) ≠ "" ∧ (processEffect tdC3 "countries" "x" cfgDefault).2 = tdC3 :=
  ⟨by decide, (C3_mutation_scope tdC3 "countries" "x" cfgDefault).1 (by decide)⟩

/-- The numeric-versus-string pair of the C6 counterexample. -/
def raC6 : TRec := ⟨[("key", .num 5)]⟩

/-- A record whose sort field is a string with no numeric prefix. -/
def rbC6 : TRec := ⟨[("key", .str "abc")]⟩

/-- C6: the claim fails — when one side is numeric and the other a
string that does not coerce to a number, the source comparator returns
0 (both relational comparisons are false after `Number` coercion turns
the string into `NaN`), whereas comparing the values as text
(`sortComparatorSpec`, the spec's wording) orders the number's text "5"
before "abc". -/
theorem C6_mixed_types_counterexample :
    sortComparator ⟨"key", "ascending"⟩ raC6 rbC6 = 0 ∧
    sortComparatorSpec ⟨"key", "ascending"⟩ raC6 rbC6 = -1 := by
  exact ⟨rfl, by decide⟩

/-- C6 (amended): the comparator treats a missing field as negative
infinity against numeric values, compares numerically when both sides
parse as numbers, compares as text when both raw values are strings,
but returns 0 — a tie preserving original order — when one side is
numeric and the other a string that does not coerce to a number; the
direction flips the sign, the sort is stable, and the spec's example
sorts to ids [3, 1, 2]. -/
theorem C6_comparator_cases (a b : TRec) (k : String) (qa qb : ℚ) (sa sb : String) :
    (a.get k = none → b.get k = none → sortComparator ⟨k, "ascending"⟩ a b = 0) ∧
    (a.get k = none → b.get k = some (.num qb) →
        sortComparator ⟨k, "ascending"⟩ a b = -1 ∧
        sortComparator ⟨k, "descending"⟩ a b = 1) ∧
    (a.get k = some (.num qa) → b.get k = some (.num qb) →
        sortComparator ⟨k, "ascending"⟩ a b =
          (if qa < qb then -1 else if qb < qa then 1 else 0) ∧
        sortComparator ⟨k, "descending"⟩ a b =
          (if qb < qa then -1 else if qa < qb then 1 else 0)) ∧
    (a.get k = some (.str sa) → b.get k = some (.str sb) → parseFloatStr sa = .nan →
        sortComparator ⟨k, "ascending"⟩ a b =
          (if sa < sb then -1 else if sb < sa then 1 else 0)) ∧
    (a.get k = some (.num qa) → b.get k = some (.str sb) → parseFloatStr sb = .nan →
        numberOfString sb = .nan → sortComparator ⟨k, "ascending"⟩ a b = 0) ∧
    sortByCmp (sortComparator ⟨"key", "ascending"⟩)
        [⟨[("id", .num 1), ("key", .num 5)]⟩, ⟨[("id", .num 2), ("key", .num 5)]⟩,
         ⟨[("id", .num 3), ("key", .num 1)]⟩] =
      [⟨[("id", .num 3), ("key", .num 1)]⟩, ⟨[("id", .num 1), ("key", .num 5)]⟩,
       ⟨[("id", .num 2), ("key", .num 5)]⟩] := by
  refine ⟨?_, ?_, ?_, ?_, ?_, by decide⟩
  · intro ha hb
    simp [sortComparator, fieldSortVal, ha, hb, parseFloatSort, numDiffSign]
  · intro ha hb
    constructor <;>
      simp [sortComparator, fieldSortVal, ha, hb, parseFloatSort, parseFloatVal, numDiffSign]
  · intro ha hb
    constructor <;>
      simp [sortComparator, fieldSortVal, ha, hb, parseFloatSort, parseFloatVal, numDiffSign]
  · intro ha hb hnan
    simp only [sortComparator, fieldSortVal, ha, hb, parseFloatSort, parseFloatVal, hnan]
    rw [if_neg (by simp)]
    simp only [jsLess, jsGreater]
    rcases lt_trichotomy sa sb with h | h | h
    · rw [if_pos h, if_pos (by simp [h])]
      simp
    · subst h
      rw [if_neg (lt_irrefl sa), if_neg (by simp), if_neg (by simp), if_neg (by simp)]
    · rw [if_neg (not_lt_of_gt h), if_neg (by simp [not_lt_of_gt h]), if_pos h,
        if_pos (by simp [h])]
      simp
  · intro ha hb hnan hnum
    simp [sortComparator, fieldSortVal, ha, hb, parseFloatSort, parseFloatVal, hnan,
      jsLess, jsGreater, sortValToNumber, hnum, pnumLt]

/-- Witness for C6 (amended): each comparator case at concrete records. -/
theorem C6_comparator_cases_witness :
    sortComparator ⟨"key", "ascending"⟩ (⟨[]⟩ : TRec) (⟨[]⟩ : TRec) = 0 ∧
    sortComparator ⟨"key", "ascending"⟩ (⟨[]⟩ : TRec) raC6 = -1 ∧
    sortComparator ⟨"key", "ascending"⟩ raC6 rbC6 = 0 := by
  refine ⟨?_, ?_, ?_⟩
  · exact (C6_comparator_cases ⟨[]⟩ ⟨[]⟩ "key" 0 0 "" "").1 rfl rfl
  · exact ((C6_comparator_cases ⟨[]⟩ raC6 "key" 0 5 "" "").2.1 rfl rfl).1
  · exact (C6_comparator_cases raC6 rbC6 "key" 5 0 "" "abc").2.2.2.2.1 rfl rfl rfl rfl

/-- C9: on any fetch failure both orchestrator variants record their
user-facing message, leave the previously loaded collections untouched,
exit the loading state, and terminate normally — the catch turns the
rejection into state instead of propagating it. -/
theorem C9_failure_preserves_last_good (env : FetchEnv) (st : ProviderState)
    (fr : Bool) (rr : Except Unit Unit) (dr : Except Unit (Option Composite))
    (t : Nat) (cst : CtxState) :
    (env.anyFailure →
        (fetchAllData env st).1.error = some fetchFailMsg ∧
        (fetchAllData env st).1.loading = false ∧
        (fetchAllData env st).1.heatmapData = st.heatmapData ∧
        (fetchAllData env st).1.sectorData = st.sectorData ∧
        (fetchAllData env st).1.timeSeriesData = st.timeSeriesData ∧
        (fetchAllData env st).1.tableData = st.tableData) ∧
    ((fr = true ∧ rr = .error ()) ∨ dr = .error () →
        loadDashboardData fr rr dr t cst =
          { cst with loading := false, error := some loadFailMsg }) := by
  constructor
  · intro hfail
    unfold FetchEnv.anyFailure at hfail
    obtain ⟨edr, ehr, esr, etr, ebr⟩ := env
    dsimp only at hfail
    rcases hfail with h | ⟨h, hc⟩
    · subst h
      exact ⟨rfl, rfl, rfl, rfl, rfl, rfl⟩
    · subst h
      cases ehr with
      | error e => exact ⟨rfl, rfl, rfl, rfl, rfl, rfl⟩
      | ok vh =>
        cases esr with
        | error e => exact ⟨rfl, rfl, rfl, rfl, rfl, rfl⟩
        | ok vs =>
          cases etr with
          | error e => exact ⟨rfl, rfl, rfl, rfl, rfl, rfl⟩
          | ok vt =>
            cases ebr with
            | error e => exact ⟨rfl, rfl, rfl, rfl, rfl, rfl⟩
            | ok vb => rcases hc with h | h | h | h <;> simp at h
  · rintro (⟨hfr, hrr⟩ | hdr)
    · subst hfr
      subst hrr
      simp [loadDashboardData]
    · subst hdr
      by_cases hc : fr = true ∧ rr = Except.error ()
      · simp [loadDashboardData, hc]
      · simp [loadDashboardData, hc]

/-- A fetch environment whose composite fetch rejects. -/
def envFail : FetchEnv :=
  { dashboardResp := .error (), heatmapResp := .ok none, sectorResp := .ok none,
    timeSeriesResp := .ok none, tableResp := .ok none }

/-- A provider state holding last-good data from an earlier cycle. -/
def stPrev : ProviderState :=
  { loading := false, error := none,
    dashboardData := some ⟨some [hrec], none, none, none⟩,
    heatmapData := [hrec], sectorData := [srec], timeSeriesData := [],
    tableData := ⟨[], []⟩ }

/-- A context state holding last-good data from an earlier cycle. -/
def cstPrev : CtxState :=
  { dashboardData := some ⟨some [hrec], none, none, none⟩, loading := false,
    error := none, lastUpdated := some 1 }

/-- Witness for C9: a rejected composite fetch and a rejected refresh at
states holding last-good data. -/
theorem C9_failure_preserves_last_good_witness :
    envFail.anyFailure ∧
    (fetchAllData envFail stPrev).1.sectorData = stPrev.sectorData ∧
    loadDashboardData true (.error ()) (.ok none) 5 cstPrev =
      { cstPrev with loading := false, error := some loadFailMsg } :=
  ⟨Or.inl rfl,
   ((C9_failure_preserves_last_good envFail stPrev true (.error ()) (.ok none) 5
       cstPrev).1 (Or.inl rfl)).2.2.2.1,
   (C9_failure_preserves_last_good envFail stPrev true (.error ()) (.ok none) 5
       cstPrev).2 (Or.inl ⟨rfl, rfl⟩)⟩
